import Mathlib

/-!
Verification of the `gat` multi-repository overview tool (Rust sources
`src/main.rs` and `src/config.rs`), shallowly embedded in Lean 4.

Conventions of the embedding:
* `git2::Status` flagsets become the record `StatusFlags`, one `Bool` per
  bit the program inspects (plus the remaining index bits, which the
  program reads through `contains` only via the bits listed below).
* Console output is modelled as lists of strings, one list element per
  `println!`/`eprintln!`/`print!` call; colouring (`colored::Colorize`)
  is presentation-only and is dropped.
* Backend (libgit2) interactions are modelled as a query trace
  (`BQuery`) plus a pre-determined `RepoState` describing what the
  backend would answer.
* A Rust `panic!`/`unwrap` on `None` is modelled by an explicit
  `panicked` constructor of the corresponding outcome type.
* Machine integers (`usize` counters from `git2::Progress`) are modelled
  as `Nat`; the program only reads and formats them, so no overflow
  arithmetic occurs.
-/

/-- The `git2::Status` bits that `gat` inspects (main.rs:80-104), plus the
index-change bits, which the status code in main.rs never tests but which
the specification refers to.  Each field is one bit of the flagset. -/
structure StatusFlags where
  indexNew : Bool
  indexModified : Bool
  indexDeleted : Bool
  indexRenamed : Bool
  indexTypechange : Bool
  wtNew : Bool
  wtModified : Bool
  wtDeleted : Bool
  wtRenamed : Bool
  wtTypechange : Bool
  ignored : Bool
deriving DecidableEq, Repr

/-- The `istatus` initializer, main.rs:80-87: the first match arm tests
`INDEX_NEW`, the remaining arms test the worktree bits `WT_MODIFIED`,
`WT_DELETED`, `WT_RENAMED`, `WT_TYPECHANGE` (exactly as the source is
written, even though the variable is the index column). -/
def istatusInit (s : StatusFlags) : Char :=
  if s.indexNew then 'A'
  else if s.wtModified then 'M'
  else if s.wtDeleted then 'D'
  else if s.wtRenamed then 'R'
  else if s.wtTypechange then 'T'
  else ' '

/-- The full two-character status code of one entry, main.rs:80-104:
`istatus` initialization, then the `wstatus` match (whose `WT_NEW` arm
mutates `istatus` to `?` when it is still a space), then the `IGNORED`
override that forces both columns to `!`. -/
def statusCode (s : StatusFlags) : Char × Char :=
  let i := istatusInit s
  let p :=
    if s.wtNew then (if i = ' ' then '?' else i, '?')
    else if s.wtModified then (i, 'M')
    else if s.wtDeleted then (i, 'D')
    else if s.wtRenamed then (i, 'R')
    else if s.wtTypechange then (i, 'T')
    else (i, ' ')
  if s.ignored then ('!', '!') else p

/-- A flagset with every bit cleared. -/
def StatusFlags.none : StatusFlags :=
  ⟨false, false, false, false, false, false, false, false, false, false, false⟩

/-- One entry of the backend status list: the flagset together with the
optional path (`status.path()` in main.rs:109 returns an `Option`). -/
structure StatusEntry where
  path : Option String
  flags : StatusFlags

/-- One rendered per-path line, main.rs:105-110:
`"  - {}{}  {}"` with the two status characters and the path,
`"None"` when the backend supplies no path. -/
def statusLineOf (e : StatusEntry) : String :=
  "  - " ++ String.mk [(statusCode e.flags).1] ++ String.mk [(statusCode e.flags).2]
    ++ "  " ++ e.path.getD "None"

/-- The configured repository descriptor, config.rs:10-15. -/
structure Repository where
  name : Option String
  location : String
  description : Option String

/-- Outcome of an operation that can succeed or panic the process. -/
inductive NameOutcome where
  | ok (s : String)
  | panicked
deriving DecidableEq, Repr

/-- Splits a character list at every occurrence of the separator
(auxiliary for the `Path::file_name` model; structural recursion so that
concrete inputs evaluate by kernel reduction). -/
def splitOnChar (sep : Char) : List Char → List (List Char)
  | [] => [[]]
  | c :: cs =>
    match splitOnChar sep cs with
    | [] => if c = sep then [[], []] else [[c]]
    | h :: t => if c = sep then [] :: h :: t else (c :: h) :: t

/-- Model of Rust `Path::file_name` as used on `location` strings
(config.rs:26-27): the final normal component of the path; `none` when
the path is empty, is only separators and `.` components, or ends in a
`..` component — the cases where `std::path::Path::file_name` returns
`None`. -/
def fileName (p : String) : Option String :=
  let comps := (splitOnChar '/' p.data).filter (fun c => !(c == []) && !(c == ['.']))
  match comps.getLast? with
  | Option.none => Option.none
  | Option.some c => if c == ['.', '.'] then Option.none else Option.some (String.mk c)

/-- Model of `Repository::name` (the method, config.rs:23-34): the
explicit `name` field when present, otherwise the final path segment of
`location`.  The source calls `.file_name().unwrap()`; the `unwrap` on a
`None` file name is modelled by `NameOutcome.panicked` (the `to_str()`
unwrap cannot fail on the strings modelled here, since Rust `String`
locations are valid UTF-8). -/
def Repository.displayName (r : Repository) : NameOutcome :=
  match r.name with
  | Option.some n => NameOutcome.ok n
  | Option.none =>
    match fileName r.location with
    | Option.some seg => NameOutcome.ok seg
    | Option.none => NameOutcome.panicked

/-- The description with its default, main.rs:30-34 and 55-59:
`description.as_ref().unwrap_or("No description")`. -/
def descriptionOr (r : Repository) : String :=
  r.description.getD "No description"

/-- A backend (libgit2) query issued against one repository; used to
record, per operation, which backend calls were made and in what order. -/
inductive BQuery where
  | qOpen
  | qIsBare
  | qHead
  | qStatuses
  | qFindRemote
  | qDownload
  | qStats
  | qDisconnect
  | qUpdateTips
deriving DecidableEq, Repr

/-- What `repo.head()` (main.rs:39-48) answers: a resolved reference with
its optional shorthand, an unborn-branch or not-found condition (both
rendered as "no branch"), or any other failure, which is propagated. -/
inductive HeadState where
  | ok (shorthand : Option String)
  | unborn
  | notFound
  | failed (msg : String)
deriving DecidableEq, Repr

/-- Cumulative transfer counters, mirroring `git2::Progress` /
`remote.stats()` (main.rs:143-158 and 169-188). -/
structure TransferStats where
  receivedObjects : Nat
  totalObjects : Nat
  indexedObjects : Nat
  indexedDeltas : Nat
  totalDeltas : Nat
  receivedBytes : Nat
  localObjects : Nat
deriving DecidableEq, Repr

/-- The backend-visible state of one opened repository: everything the
three operations can observe through queries.  `stats` are the remote's
cumulative counters after a successful download. -/
structure RepoState where
  isBare : Bool
  head : HeadState
  entries : List StatusEntry
  hasOrigin : Bool
  stats : TransferStats

/-- How one operation ended: success, the bare-repository rejection, a
propagated backend failure, or a process panic. -/
inductive Outcome where
  | ok
  | errBare
  | errBackend (msg : String)
  | panicked
deriving DecidableEq, Repr

/-- The observable effect of running one operation on one repository:
the backend query trace, stdout lines, stderr lines, and the result. -/
structure OpResult where
  queries : List BQuery
  out : List String
  err : List String
  res : Outcome
deriving DecidableEq, Repr

/-- The branch label of main.rs:53:
`head.as_ref().and_then(|h| h.shorthand()).unwrap_or("no branch")`. -/
def headLabel : HeadState → String
  | HeadState.ok s => s.getD "no branch"
  | _ => "no branch"

/-- Model of `print_title` (main.rs:24-62).  Opens the repository, and if
it is bare prints the warning block (name, description, location) to
stderr and fails; otherwise resolves HEAD (propagating failures other
than unborn/not-found) and prints the title block to stdout.  The `name()`
call happens while building each output string, so a panicking name
derivation panics the operation at that point, before anything is
printed by that statement. -/
def print_title (r : Repository) (st : RepoState) : OpResult :=
  if st.isBare then
    match r.displayName with
    | NameOutcome.panicked => ⟨[BQuery.qOpen, BQuery.qIsBare], [], [], Outcome.panicked⟩
    | NameOutcome.ok n =>
      ⟨[BQuery.qOpen, BQuery.qIsBare], [],
        [n ++ ": cannot use bare repository\n" ++ descriptionOr r ++ " - " ++ r.location ++ "\n"],
        Outcome.errBare⟩
  else
    match st.head with
    | HeadState.failed msg =>
      ⟨[BQuery.qOpen, BQuery.qIsBare, BQuery.qHead], [],
        ["can't get HEAD: " ++ msg], Outcome.errBackend msg⟩
    | h =>
      match r.displayName with
      | NameOutcome.panicked =>
        ⟨[BQuery.qOpen, BQuery.qIsBare, BQuery.qHead], [], [], Outcome.panicked⟩
      | NameOutcome.ok n =>
        ⟨[BQuery.qOpen, BQuery.qIsBare, BQuery.qHead],
          [n ++ "(" ++ headLabel h ++ "): " ++ r.location ++ "\n" ++ descriptionOr r],
          [], Outcome.ok⟩

/-- The affirmative message of main.rs:76. -/
def nothingChangedMsg : String := "Nothing changed in this repository"

/-- Model of `status` (main.rs:64-113).  Runs `print_title` first and
propagates its failure; re-opens the repository and re-checks bareness;
queries the status list once (main.rs:74) and, when it is non-empty,
queries it a second time (main.rs:79) to iterate and print one line per
entry. -/
def status (r : Repository) (st : RepoState) : OpResult :=
  let t := print_title r st
  match t.res with
  | Outcome.ok =>
    let q0 := t.queries ++ [BQuery.qOpen, BQuery.qIsBare]
    if st.isBare then
      ⟨q0, t.out, t.err, Outcome.errBare⟩
    else if st.entries.length = 0 then
      ⟨q0 ++ [BQuery.qStatuses], t.out ++ [nothingChangedMsg], t.err, Outcome.ok⟩
    else
      ⟨q0 ++ [BQuery.qStatuses, BQuery.qStatuses],
        t.out ++ st.entries.map statusLineOf, t.err, Outcome.ok⟩
  | _ => t

/-- Outcome of the credential callback (main.rs:122-129): either the SSH
key credential handed to libgit2, or the process panic caused by the
`unwrap` on `username_from_url`. -/
inductive CredOutcome where
  | sshKey (username : String) (publicKey : Option String)
      (privateKeyPath : String) (passphrase : Option String)
  | panicked
deriving DecidableEq, Repr

/-- Model of the `cb.credentials` closure (main.rs:122-129): unwraps the
username supplied by the remote URL (panicking when there is none) and
answers with an SSH private-key credential at `<home>/.ssh/id_rsa`,
no public key and no passphrase.  `home` is the compile-time `HOME`
environment value; the `url` and allowed-types arguments are ignored by
the source (`_url`, `_allowed_types`). -/
def credentialsCallback (home : String) (usernameFromUrl : Option String) : CredOutcome :=
  match usernameFromUrl with
  | Option.none => CredOutcome.panicked
  | Option.some u =>
    CredOutcome.sshKey u Option.none (home ++ "/.ssh/id_rsa") Option.none

/-- A git object id in its 40-hexadecimal-character display form
(`git2::Oid` implements `Display` by writing the 40 hex digits, so the
width specifiers `{:20}`/`{:10}` in main.rs:137-139 never pad). -/
structure Oid where
  hex : String
deriving DecidableEq, Repr

/-- Model of `Oid::is_zero`: every raw byte is zero, i.e. every hex digit
of the display form is `0`. -/
def Oid.isZero (o : Oid) : Bool :=
  o.hex.data.all (fun c => c = '0')

/-- Model of the `cb.update_tips` closure (main.rs:135-142): the line it
prints for one ref tip update, given the ref name, the old id `a` and
the new id `b`. -/
def updateTipLine (refname : String) (a b : Oid) : String :=
  if a.isZero then
    "[new]     " ++ b.hex ++ " " ++ refname
  else
    "[updated] " ++ a.hex ++ ".." ++ b.hex ++ " " ++ refname

/-- Model of the `cb.transfer_progress` closure (main.rs:143-161): the
string passed to `print!` for one progress tick, or `none` when the tick
prints nothing (objects still pending but total still zero).  Both
format strings end in a carriage return and are printed without a
newline, so each tick overwrites the previous one on the same line. -/
def transferProgressOutput (p : TransferStats) : Option String :=
  if p.receivedObjects = p.totalObjects then
    Option.some ("Resolving deltas " ++ Nat.repr p.indexedDeltas ++ "/"
      ++ Nat.repr p.totalDeltas ++ "\r")
  else if 0 < p.totalObjects then
    Option.some ("Received " ++ Nat.repr p.receivedObjects ++ "/"
      ++ Nat.repr p.totalObjects ++ " objects (" ++ Nat.repr p.indexedObjects
      ++ ") in " ++ Nat.repr p.receivedBytes ++ " bytes\r")
  else
    Option.none

/-- Model of the final summary `println!` (main.rs:169-188): one line
built from the remote's cumulative statistics, with the
`(used N local objects)` clause present exactly on the
`stats.local_objects() > 0` branch. -/
def fetchSummary (s : TransferStats) : String :=
  if 0 < s.localObjects then
    "\rReceived " ++ Nat.repr s.indexedObjects ++ "/" ++ Nat.repr s.totalObjects
      ++ " objects in " ++ Nat.repr s.receivedBytes ++ " bytes (used "
      ++ Nat.repr s.localObjects ++ " local objects)"
  else
    "\rReceived " ++ Nat.repr s.indexedObjects ++ "/" ++ Nat.repr s.totalObjects
      ++ " objects in " ++ Nat.repr s.receivedBytes ++ " bytes"

/-- Model of `fetch` (main.rs:115-199) at the operation level.  Runs
`print_title` and propagates its failure; re-opens and re-checks
bareness; resolves the remote `"origin"` (failing when absent); then the
download, whose live callback output is modelled separately by
`credentialsCallback`, `updateTipLine` and `transferProgressOutput`, is
taken as succeeding with cumulative counters `st.stats`, after which the
summary line is printed and the remote is disconnected and its tips
updated. -/
def fetch (r : Repository) (st : RepoState) : OpResult :=
  let t := print_title r st
  match t.res with
  | Outcome.ok =>
    let q0 := t.queries ++ [BQuery.qOpen, BQuery.qIsBare]
    if st.isBare then
      ⟨q0, t.out, t.err, Outcome.errBare⟩
    else if st.hasOrigin then
      ⟨q0 ++ [BQuery.qFindRemote, BQuery.qDownload, BQuery.qStats,
          BQuery.qDisconnect, BQuery.qUpdateTips],
        t.out ++ [fetchSummary st.stats], t.err, Outcome.ok⟩
    else
      ⟨q0 ++ [BQuery.qFindRemote], t.out, t.err,
        Outcome.errBackend "remote origin not found"⟩
  | _ => t

/-! Helper lemmas: the decimal rendering of a natural number consists of
digit characters only, so a given non-digit character cannot occur in it. -/

theorem digitChar_isDigit (n : Nat) (h : n < 10) : (Nat.digitChar n).isDigit = true := by
  interval_cases n <;> decide

theorem toDigitsCore_isDigit (fuel : Nat) : ∀ (n : Nat) (acc : List Char),
    (∀ c ∈ acc, c.isDigit = true) →
    ∀ c ∈ Nat.toDigitsCore 10 fuel n acc, c.isDigit = true := by
  induction fuel with
  | zero =>
    intro n acc hacc
    simpa [Nat.toDigitsCore] using hacc
  | succ fuel ih =>
    intro n acc hacc
    have hd : (Nat.digitChar (n % 10)).isDigit = true :=
      digitChar_isDigit _ (Nat.mod_lt _ (by decide))
    have hcons : ∀ c ∈ Nat.digitChar (n % 10) :: acc, c.isDigit = true := by
      intro c hc
      rcases List.mem_cons.mp hc with h | h
      · subst h; exact hd
      · exact hacc c h
    simp only [Nat.toDigitsCore]
    split
    · exact hcons
    · exact ih _ _ hcons

theorem repr_data_isDigit (n : Nat) : ∀ c ∈ (Nat.repr n).data, c.isDigit = true := by
  intro c hc
  have hdata : (Nat.repr n).data = Nat.toDigitsCore 10 (n + 1) n [] := rfl
  rw [hdata] at hc
  exact toDigitsCore_isDigit _ _ _ (by intro c hc; cases hc) c hc

theorem char_not_mem_repr (c : Char) (n : Nat) (h : c.isDigit = false) :
    c ∉ (Nat.repr n).data := by
  intro hc
  have := repr_data_isDigit n c hc
  rw [h] at this
  exact Bool.noConfusion this

theorem char_not_mem_append (c : Char) (a b : String)
    (ha : c ∉ a.data) (hb : c ∉ b.data) : c ∉ (a ++ b).data := by
  rw [String.data_append]
  intro hc
  rcases List.mem_append.mp hc with h | h
  · exact ha h
  · exact hb h

/-! Claim theorems. -/

/-- C1 (code bug evaluation): the index/staged column does NOT reflect the
index-vs-HEAD state.  A flagset with only `INDEX_MODIFIED` set renders as
`(' ', ' ')` — the staged modification is invisible — because the
`istatus` match (main.rs:82-85) tests the worktree bits `WT_MODIFIED`,
`WT_DELETED`, `WT_RENAMED`, `WT_TYPECHANGE` instead of the index bits;
conversely a flagset with only `WT_MODIFIED` set renders as `('M', 'M')`
although the index is unmodified. -/
theorem statusCode_index_column_uses_worktree_bits :
    statusCode { StatusFlags.none with indexModified := true } = (' ', ' ') ∧
    statusCode { StatusFlags.none with wtModified := true } = ('M', 'M') := by
  decide

/-- C2: whenever the ignored bit is set, the rendered two-character code
is exactly `!!`, whatever other bits co-occur in the flagset
(main.rs:101-104 overrides both columns unconditionally). -/
theorem statusCode_ignored_override (s : StatusFlags) (h : s.ignored = true) :
    statusCode s = ('!', '!') := by
  simp [statusCode, h]

/-- Witness for C2 at a flagset that also has new, modified and deleted
bits set. -/
theorem statusCode_ignored_override_witness :
    statusCode { StatusFlags.none with
      ignored := true, indexNew := true, wtModified := true, wtDeleted := true } =
      ('!', '!') :=
  statusCode_ignored_override _ (by decide)

/-- C3: the flagset with only the worktree-new bit set (and no ignored
bit) renders as `??`: the worktree column is `?` and the index column,
still a space, is overridden to `?` (main.rs:88-94). -/
theorem statusCode_untracked_both_columns :
    statusCode { StatusFlags.none with wtNew := true } = ('?', '?') := by
  decide

/-- C6 (counterexample): deriving the display name of a descriptor with
no explicit name from the location `""` (no final path segment) does not
signal a recoverable error — it panics the process, via the `unwrap` on
the `None` returned by `file_name()` (config.rs:26-30). -/
theorem displayName_empty_location_panics :
    Repository.displayName ⟨Option.none, "", Option.none⟩ = NameOutcome.panicked := by
  decide

/-- C6 (amended): for every descriptor with no explicit name whose
location has no final path segment, name derivation panics (crashing the
process) rather than returning a recoverable error or an empty name. -/
theorem displayName_no_final_segment_panics (r : Repository)
    (h1 : r.name = Option.none) (h2 : fileName r.location = Option.none) :
    Repository.displayName r = NameOutcome.panicked := by
  simp [Repository.displayName, h1, h2]

/-- Witness for the amended C6 at the location `"a/.."`, which ends in a
`..` component and therefore has no final segment. -/
theorem displayName_no_final_segment_panics_witness :
    Repository.displayName ⟨Option.none, "a/..", Option.none⟩ = NameOutcome.panicked :=
  displayName_no_final_segment_panics _ rfl (by decide)

/-- C9: a ref tip update whose old id is the zero id is rendered as a
"new" line showing the new id and the ref name; any other update is
rendered as an old..new line showing both ids and the ref name
(main.rs:135-142). -/
theorem updateTipLine_new_or_updated (refname : String) (a b : Oid) :
    (a.isZero = true →
      updateTipLine refname a b = "[new]     " ++ b.hex ++ " " ++ refname) ∧
    (a.isZero = false →
      updateTipLine refname a b =
        "[updated] " ++ a.hex ++ ".." ++ b.hex ++ " " ++ refname) := by
  constructor <;> intro h <;> simp [updateTipLine, h]

/-- Witness for C9: an update from the zero id to `abc123` on
`refs/heads/main` renders as a "new" line, and an update from `111111`
to `222222` renders as an old..new line. -/
theorem updateTipLine_new_or_updated_witness :
    updateTipLine "refs/heads/main"
        ⟨"0000000000000000000000000000000000000000"⟩ ⟨"abc123"⟩ =
      "[new]     " ++ "abc123" ++ " " ++ "refs/heads/main" ∧
    updateTipLine "refs/heads/main" ⟨"111111"⟩ ⟨"222222"⟩ =
      "[updated] " ++ "111111" ++ ".." ++ "222222" ++ " " ++ "refs/heads/main" :=
  ⟨(updateTipLine_new_or_updated _ _ _).1 (by decide),
   (updateTipLine_new_or_updated _ _ _).2 (by decide)⟩

/-- C10: the credential callback unwraps the username supplied by the
remote URL, so a credential request for a URL without a username panics
the process (it never returns a credential error); with a username it
answers an SSH key credential at `<home>/.ssh/id_rsa` with no
passphrase (main.rs:122-129). -/
theorem credentialsCallback_requires_username (home : String) :
    credentialsCallback home Option.none = CredOutcome.panicked ∧
    ∀ u : String, credentialsCallback home (Option.some u) =
      CredOutcome.sshKey u Option.none (home ++ "/.ssh/id_rsa") Option.none := by
  exact ⟨rfl, fun u => rfl⟩

/-- Helper: appending on the left preserves a trailing carriage return. -/
theorem data_getLast?_append_CR (a b : String)
    (hb : b.data.getLast? = Option.some '\r') :
    (a ++ b).data.getLast? = Option.some '\r' := by
  rw [String.data_append]
  rw [List.getLast?_append_of_ne_nil]
  · exact hb
  · intro h
    rw [h] at hb
    cases hb

/-- C7: while objects remain to receive (received < total) the transfer
callback prints the "Received X/Y objects (Z indexed) in B bytes" line;
once received = total it prints the "Resolving deltas A/B" line instead;
every line the callback prints ends in a carriage return and contains no
newline, so successive ticks overwrite one output line rather than
accumulating scrollback (main.rs:143-161). -/
theorem transferProgress_phases (p : TransferStats) :
    (p.receivedObjects < p.totalObjects →
      transferProgressOutput p = Option.some ("Received " ++ Nat.repr p.receivedObjects
        ++ "/" ++ Nat.repr p.totalObjects ++ " objects (" ++ Nat.repr p.indexedObjects
        ++ ") in " ++ Nat.repr p.receivedBytes ++ " bytes\r")) ∧
    (p.receivedObjects = p.totalObjects →
      transferProgressOutput p = Option.some ("Resolving deltas "
        ++ Nat.repr p.indexedDeltas ++ "/" ++ Nat.repr p.totalDeltas ++ "\r")) ∧
    (∀ s, transferProgressOutput p = Option.some s →
      s.data.getLast? = Option.some '\r' ∧ '\n' ∉ s.data) := by
  refine ⟨?_, ?_, ?_⟩
  · intro h
    rw [transferProgressOutput, if_neg (Nat.ne_of_lt h),
      if_pos (Nat.lt_of_le_of_lt (Nat.zero_le _) h)]
  · intro h
    rw [transferProgressOutput, if_pos h]
  · intro s hs
    rw [transferProgressOutput] at hs
    split at hs
    · cases hs
      constructor
      · repeat' apply data_getLast?_append_CR
        decide
      · repeat' apply char_not_mem_append
        all_goals first
          | exact char_not_mem_repr _ _ (by decide)
          | decide
    · split at hs
      · cases hs
        constructor
        · repeat' apply data_getLast?_append_CR
          decide
        · repeat' apply char_not_mem_append
          all_goals first
            | exact char_not_mem_repr _ _ (by decide)
            | decide
      · cases hs

/-- Witness for C7: with 5 of 10 objects received the callback prints the
received-objects line; with 10 of 10 it prints the resolving-deltas
line. -/
theorem transferProgress_phases_witness :
    transferProgressOutput ⟨5, 10, 3, 0, 0, 100, 0⟩ =
      Option.some ("Received " ++ Nat.repr 5 ++ "/" ++ Nat.repr 10 ++ " objects ("
        ++ Nat.repr 3 ++ ") in " ++ Nat.repr 100 ++ " bytes\r") ∧
    transferProgressOutput ⟨10, 10, 10, 2, 7, 512, 0⟩ =
      Option.some ("Resolving deltas " ++ Nat.repr 2 ++ "/" ++ Nat.repr 7 ++ "\r") :=
  ⟨(transferProgress_phases _).1 (by decide), (transferProgress_phases _).2.1 (by decide)⟩

/-- C8: the fetch summary line contains the "(used N local objects)"
clause exactly when the local-objects counter is positive; the summary
is a single line (no newline inside); and a successful fetch prints
exactly one summary element, built from the remote's cumulative
statistics, after the title output (main.rs:169-188). -/
theorem fetchSummary_local_objects_clause (s : TransferStats) :
    ((∃ pre post, (fetchSummary s).data = pre ++ ((" local objects)").data ++ post)) ↔
      0 < s.localObjects) ∧
    '\n' ∉ (fetchSummary s).data ∧
    (∀ (r : Repository) (st : RepoState),
      st.isBare = false → st.hasOrigin = true → (print_title r st).res = Outcome.ok →
      (fetch r st).out = (print_title r st).out ++ [fetchSummary st.stats]) := by
  refine ⟨⟨?_, ?_⟩, ?_, ?_⟩
  · rintro ⟨pre, post, hdec⟩
    by_contra hzero
    have hl : 'l' ∉ (fetchSummary s).data := by
      rw [fetchSummary, if_neg hzero]
      repeat' apply char_not_mem_append
      all_goals first
        | exact char_not_mem_repr _ _ (by decide)
        | decide
    apply hl
    rw [hdec]
    exact List.mem_append_right _ (List.mem_append_left _ (by decide))
  · intro h
    rw [fetchSummary, if_pos h]
    refine ⟨("\rReceived " ++ Nat.repr s.indexedObjects ++ "/" ++ Nat.repr s.totalObjects
      ++ " objects in " ++ Nat.repr s.receivedBytes ++ " bytes (used "
      ++ Nat.repr s.localObjects).data, [], ?_⟩
    rw [List.append_nil, String.data_append]
  · rw [fetchSummary]
    split
    · repeat' apply char_not_mem_append
      all_goals first
        | exact char_not_mem_repr _ _ (by decide)
        | decide
    · repeat' apply char_not_mem_append
      all_goals first
        | exact char_not_mem_repr _ _ (by decide)
        | decide
  · intro r st hb ho ht
    simp [fetch, hb, ho, ht]

/-- Witness for C8: with 3 local objects the clause is present, with 0
local objects it is absent. -/
theorem fetchSummary_local_objects_clause_witness :
    (∃ pre post, (fetchSummary ⟨10, 10, 10, 0, 0, 512, 3⟩).data =
      pre ++ ((" local objects)").data ++ post)) ∧
    ¬ (∃ pre post, (fetchSummary ⟨10, 10, 10, 0, 0, 512, 0⟩).data =
      pre ++ ((" local objects)").data ++ post)) :=
  ⟨(fetchSummary_local_objects_clause _).1.mpr (by decide),
   fun h => absurd ((fetchSummary_local_objects_clause _).1.mp h) (by decide)⟩

/-- Helper: a rendered title line contains a newline, and the
"nothing changed" message does not, so the two strings never coincide. -/
theorem titleLine_ne_nothingChanged (n label loc d : String) :
    n ++ "(" ++ label ++ "): " ++ loc ++ "\n" ++ d ≠ nothingChangedMsg := by
  intro h
  have hmem : '\n' ∈ (n ++ "(" ++ label ++ "): " ++ loc ++ "\n" ++ d).data := by
    simp only [String.data_append]
    exact List.mem_append_left _ (List.mem_append_right _ (by decide))
  rw [h] at hmem
  revert hmem
  decide

/-- C5: against a bare repository (with a derivable name), each of the
three operations — title report, `status`, `fetch` — returns the
bare-repository error with no backend queries beyond open and the
bareness check; the title report prints the warning block carrying the
name, the description and the location to stderr before failing, and
`status` and `fetch` behave exactly as the failing title report
(main.rs:26-38, 64-69, 115-120). -/
theorem bare_repository_guard (r : Repository) (st : RepoState) (n : String)
    (hbare : st.isBare = true) (hn : r.displayName = NameOutcome.ok n) :
    (print_title r st).res = Outcome.errBare ∧
    (print_title r st).queries = [BQuery.qOpen, BQuery.qIsBare] ∧
    (print_title r st).err =
      [n ++ ": cannot use bare repository\n" ++ descriptionOr r ++ " - "
        ++ r.location ++ "\n"] ∧
    status r st = print_title r st ∧
    fetch r st = print_title r st := by
  have ht : print_title r st =
      ⟨[BQuery.qOpen, BQuery.qIsBare], [],
        [n ++ ": cannot use bare repository\n" ++ descriptionOr r ++ " - "
          ++ r.location ++ "\n"],
        Outcome.errBare⟩ := by
    simp [print_title, hbare, hn]
  refine ⟨by rw [ht], by rw [ht], by rw [ht], ?_, ?_⟩
  · simp [status, ht]
  · simp [fetch, ht]

/-- Witness for C5 at a concrete bare repository. -/
theorem bare_repository_guard_witness :
    (print_title ⟨Option.some "repo1", "/tmp/r", Option.none⟩
        ⟨true, HeadState.unborn, [], false, ⟨0, 0, 0, 0, 0, 0, 0⟩⟩).res = Outcome.errBare ∧
    (print_title ⟨Option.some "repo1", "/tmp/r", Option.none⟩
        ⟨true, HeadState.unborn, [], false, ⟨0, 0, 0, 0, 0, 0, 0⟩⟩).queries =
      [BQuery.qOpen, BQuery.qIsBare] ∧
    (print_title ⟨Option.some "repo1", "/tmp/r", Option.none⟩
        ⟨true, HeadState.unborn, [], false, ⟨0, 0, 0, 0, 0, 0, 0⟩⟩).err =
      ["repo1" ++ ": cannot use bare repository\n" ++ "No description" ++ " - "
        ++ "/tmp/r" ++ "\n"] ∧
    status ⟨Option.some "repo1", "/tmp/r", Option.none⟩
        ⟨true, HeadState.unborn, [], false, ⟨0, 0, 0, 0, 0, 0, 0⟩⟩ =
      print_title ⟨Option.some "repo1", "/tmp/r", Option.none⟩
        ⟨true, HeadState.unborn, [], false, ⟨0, 0, 0, 0, 0, 0, 0⟩⟩ ∧
    fetch ⟨Option.some "repo1", "/tmp/r", Option.none⟩
        ⟨true, HeadState.unborn, [], false, ⟨0, 0, 0, 0, 0, 0, 0⟩⟩ =
      print_title ⟨Option.some "repo1", "/tmp/r", Option.none⟩
        ⟨true, HeadState.unborn, [], false, ⟨0, 0, 0, 0, 0, 0, 0⟩⟩ :=
  bare_repository_guard _ _ "repo1" rfl rfl

/-- C4: for a non-bare repository with a derivable name, a resolvable
(or unborn) HEAD and zero status entries, `status` prints the title line
followed by exactly one "nothing changed" line — no per-path lines — and
returns success (main.rs:74-78). -/
theorem status_nothing_changed (r : Repository) (st : RepoState) (n : String)
    (hbare : st.isBare = false) (hent : st.entries = [])
    (hn : r.displayName = NameOutcome.ok n)
    (hh : ∀ msg, st.head ≠ HeadState.failed msg) :
    (status r st).res = Outcome.ok ∧
    (status r st).out =
      [n ++ "(" ++ headLabel st.head ++ "): " ++ r.location ++ "\n" ++ descriptionOr r,
        nothingChangedMsg] ∧
    (status r st).out.count nothingChangedMsg = 1 := by
  have ht : print_title r st =
      ⟨[BQuery.qOpen, BQuery.qIsBare, BQuery.qHead],
        [n ++ "(" ++ headLabel st.head ++ "): " ++ r.location ++ "\n" ++ descriptionOr r],
        [], Outcome.ok⟩ := by
    cases hhead : st.head with
    | failed msg => exact absurd hhead (hh msg)
    | ok s => simp [print_title, hbare, hn, hhead, headLabel]
    | unborn => simp [print_title, hbare, hn, hhead, headLabel]
    | notFound => simp [print_title, hbare, hn, hhead, headLabel]
  have hne : (n ++ "(" ++ headLabel st.head ++ "): " ++ r.location ++ "\n" ++ descriptionOr r)
      ≠ nothingChangedMsg := titleLine_ne_nothingChanged _ _ _ _
  refine ⟨?_, ?_, ?_⟩
  · simp [status, ht, hbare, hent]
  · simp [status, ht, hbare, hent]
  · simp [status, ht, hbare, hent, List.count_cons, List.count_nil, hne]

/-- Witness for C4 at a concrete clean repository on branch `main`. -/
theorem status_nothing_changed_witness :
    (status ⟨Option.some "repo1", "/tmp/r", Option.none⟩
        ⟨false, HeadState.ok (Option.some "main"), [], false, ⟨0, 0, 0, 0, 0, 0, 0⟩⟩).res =
      Outcome.ok ∧
    (status ⟨Option.some "repo1", "/tmp/r", Option.none⟩
        ⟨false, HeadState.ok (Option.some "main"), [], false, ⟨0, 0, 0, 0, 0, 0, 0⟩⟩).out =
      ["repo1" ++ "(" ++ headLabel (HeadState.ok (Option.some "main")) ++ "): "
        ++ "/tmp/r" ++ "\n" ++ "No description", nothingChangedMsg] ∧
    (status ⟨Option.some "repo1", "/tmp/r", Option.none⟩
        ⟨false, HeadState.ok (Option.some "main"), [], false,
          ⟨0, 0, 0, 0, 0, 0, 0⟩⟩).out.count nothingChangedMsg = 1 :=
  status_nothing_changed _ _ "repo1" rfl rfl rfl
    (fun _ h => HeadState.noConfusion h)
